import Mathlib

/-!
Verification of the `avoid_coalesce` notebook
(`projects/avoid_coalesce.kp/orig_src/Coalesce+Affects+Parallelism.ipynb`).

The notebook's own code is sequential Python glue around the PySpark client
API.  We embed it shallowly:

* Wall-clock time is an integer counter in `PyState.clock`; `time.time()`
  reads it and `time.sleep(n)` advances it.
* Spark expressions are lazy, so the notebook cells build symbolic plans:
  `RDD` for `sc.parallelize` / `.map(slow_func)` (the only function the
  notebook ever maps is `slow_func`, so the plan records that node
  symbolically), `DF` for `createDataFrame` / `.coalesce` / `.repartition`.
* Only driver actions run jobs: `.take`, `.write.mode(m).parquet(p)` and
  `sc.cancelAllJobs()`.  Executing an action appends it to the driver-call
  trace `PyState.trace` and advances the clock by an engine-chosen duration
  `dur : Action → Int`, which is kept abstract: the engine is external.
* Python functions become explicit state-passing functions
  `PyState → PyState × α`; exception propagation is modelled separately with
  `Except`-valued variants (`timerE`, `mapTimedE`, ...).
-/

namespace AvoidCoalesce

/-- A Spark RDD plan as built by the notebook: `sc.parallelize(someList)`
and `.map(slow_func)` (the notebook maps no other function, so the map
node is recorded symbolically). -/
inductive RDD where
  | parallelize (data : List Int)
  | mapSlow (r : RDD)
deriving DecidableEq, Repr

/-- The schema argument of `createDataFrame`; the notebook only ever passes
`LongType()`. -/
inductive SType where
  | LongType
deriving DecidableEq, Repr

/-- A Spark DataFrame plan: `sqlContext.createDataFrame(rdd, schema)`,
`.coalesce(n)`, `.repartition(n)`. -/
inductive DF where
  | createDataFrame (r : RDD) (schema : SType)
  | coalesce (df : DF) (n : Nat)
  | repartition (df : DF) (n : Nat)
deriving DecidableEq, Repr

/-- A blocking driver call: `.take(n)` on an RDD,
`.write.mode(mode).parquet(path)` on a DataFrame, or `sc.cancelAllJobs()`. -/
inductive Action where
  | take (r : RDD) (n : Nat)
  | writeParquet (df : DF) (mode : String) (path : String)
  | cancelAllJobs
deriving DecidableEq, Repr

/-- The interpreter state seen by the notebook's own code: the wall clock
(in seconds) and the trace of driver calls issued so far. -/
structure PyState where
  clock : Int
  trace : List Action
deriving DecidableEq, Repr

/-- `time.time()`: read the wall clock. -/
def time_time (s : PyState) : Int := s.clock

/-- `time.sleep(secs)`: the wall clock advances by `secs`. -/
def time_sleep (secs : Int) (s : PyState) : PyState :=
  { s with clock := s.clock + secs }

/-- Source (cell 5):
```
def slow_func(ping):
    """Identity function that takes 1s to return"""
    time.sleep(1)
    return(ping)
``` -/
def slow_func (ping : Int) (s : PyState) : PyState × Int :=
  let s1 := time_sleep 1 s
  (s1, ping)

/-- Source (cell 6):
```
def timer(func):
    """Times the execution of a function"""
    start_time = time.time()
    func()
    return time.time() - start_time
``` -/
def timer {α : Type} (func : PyState → PyState × α) (s : PyState) :
    PyState × Int :=
  let start_time := time_time s
  let s1 := (func s).1
  (s1, time_time s1 - start_time)

/-- Source (cell 3): `path = "~/tmp.parquet"`. -/
def path : String := "~/tmp.parquet"

/-- Source (cell 8):
```
def create_frame(rdd):
    return sqlContext.createDataFrame(rdd, schema=LongType())
``` -/
def create_frame (rdd : RDD) : DF :=
  DF.createDataFrame rdd SType.LongType

/-- Running a blocking driver call: the call is appended to the driver
trace and the notebook blocks for the engine-chosen job duration `dur a`.
The duration function is abstract because the engine is external. -/
def runJob (dur : Action → Int) (a : Action) (s : PyState) : PyState × Unit :=
  ({ clock := s.clock + dur a, trace := s.trace ++ [a] }, ())

/-- Python 2 `map(f, xs)` over an effectful `f`, collecting the results in
order while threading the interpreter state. -/
def mapTimed (f : Nat → PyState → PyState × Int) :
    List Nat → PyState → PyState × List Int
  | [], s => (s, [])
  | x :: xs, s =>
    let p := f x s
    let q := mapTimed f xs p.1
    (q.1, p.2 :: q.2)

/-- Python `range(x)` as a list of Long values. -/
def intRange (x : Nat) : List Int :=
  (List.range x).map Int.ofNat

/-- Cell 10 body at input size `x`:
`sc.parallelize(range(x)).map(slow_func).take(x)`. -/
def expSimpleAction (x : Nat) : Action :=
  Action.take (RDD.mapSlow (RDD.parallelize (intRange x))) x

/-- Cell 12 body at input size `x`:
`create_frame(sc.parallelize(range(x))).coalesce(1).write.mode("overwrite").parquet(path)`. -/
def expCoalesceAction (x : Nat) : Action :=
  Action.writeParquet (DF.coalesce (create_frame (RDD.parallelize (intRange x))) 1)
    "overwrite" path

/-- Cell 14 body at input size `x`:
`create_frame(sc.parallelize(range(x)).map(slow_func)).coalesce(1).write.mode("overwrite").parquet(path)`. -/
def expCoalesceMapAction (x : Nat) : Action :=
  Action.writeParquet
    (DF.coalesce (create_frame (RDD.mapSlow (RDD.parallelize (intRange x)))) 1)
    "overwrite" path

/-- Cell 16 body at input size `x`:
`create_frame(sc.parallelize(range(x)).map(slow_func)).repartition(1).write.mode("overwrite").parquet(path)`. -/
def expRepartitionAction (x : Nat) : Action :=
  Action.writeParquet
    (DF.repartition (create_frame (RDD.mapSlow (RDD.parallelize (intRange x)))) 1)
    "overwrite" path

/-- An experiment cell: `map(lambda x: timer(lambda: <driver call at x>), range(10))`. -/
def expCell (dur : Action → Int) (act : Nat → Action) (s : PyState) :
    PyState × List Int :=
  mapTimed (fun x => timer (runJob dur (act x))) (List.range 10) s

/-- The four experiment cells of the notebook, in execution order
(cells 10, 12, 14 and 16). -/
def experimentCells : List (Nat → Action) :=
  [expSimpleAction, expCoalesceAction, expCoalesceMapAction, expRepartitionAction]

/-- The executable notebook cells in order: cell 7 `timer(lambda: slow_func(10))`,
the four experiment cells, and cell 17 `sc.cancelAllJobs()`.
(Cell 3 binds `path`, cell 4 reads the `sc.defaultParallelism` property;
neither issues a job.) -/
def notebookRun (dur : Action → Int) (s : PyState) : PyState :=
  let s0 := (timer (fun t => slow_func 10 t) s).1
  let s1 := (expCell dur expSimpleAction s0).1
  let s2 := (expCell dur expCoalesceAction s1).1
  let s3 := (expCell dur expCoalesceMapAction s2).1
  let s4 := (expCell dur expRepartitionAction s3).1
  (runJob dur Action.cancelAllJobs s4).1

/-- The driver calls the notebook issues, cell by cell. -/
def notebookDriverCalls : List Action :=
  (List.range 10).map expSimpleAction
    ++ (List.range 10).map expCoalesceAction
    ++ (List.range 10).map expCoalesceMapAction
    ++ (List.range 10).map expRepartitionAction
    ++ [Action.cancelAllJobs]

/-- Is this driver call a parquet write? -/
def Action.isWrite : Action → Bool
  | .writeParquet .. => true
  | _ => false

/-- A write either targets the notebook's single `path` with mode
`"overwrite"`, or the call is not a write at all. -/
def writeOk (a : Action) : Bool :=
  match a with
  | .writeParquet _ mode p => mode == "overwrite" && p == path
  | _ => true

/-- The `parallelize` payload under an RDD plan. -/
def RDD.sourceData : RDD → List Int
  | .parallelize d => d
  | .mapSlow r => RDD.sourceData r

/-- The RDD a DataFrame plan was created from. -/
def DF.baseRDD : DF → RDD
  | .createDataFrame r _ => r
  | .coalesce df _ => DF.baseRDD df
  | .repartition df _ => DF.baseRDD df

/-- The locally constructed input sequence a driver call operates on. -/
def Action.inputData : Action → List Int
  | .take r _ => r.sourceData
  | .writeParquet df _ _ => (DF.baseRDD df).sourceData
  | .cancelAllJobs => []

/-- Erase the `.map(slow_func)` nodes of an RDD plan (the "is the per-row
delay mapped over the data" dimension of the experiments). -/
def eraseSlow : RDD → RDD
  | .parallelize d => .parallelize d
  | .mapSlow r => eraseSlow r

/-- What remains of a driver call after erasing the dimensions the
experiments are said to vary in. -/
inductive Residual where
  | takeRes (r : RDD) (n : Nat)
  | writeRes (r : RDD) (mode : String) (path : String)
  | cancelRes
deriving DecidableEq, Repr

/-- Erase from a driver call exactly the three dimensions claim C4 says the
experiments vary in: the frame wrapping (`create_frame`), the
`.map(slow_func)` nodes, and the `.coalesce(1)` / `.repartition(1)` choice.
Everything else (the take count, the write mode and path, the parallelized
input data) is kept. -/
def eraseDims : Action → Residual
  | .take r n => .takeRes (eraseSlow r) n
  | .writeParquet df mode p => .writeRes (eraseSlow (DF.baseRDD df)) mode p
  | .cancelAllJobs => .cancelRes

/-!
Exception propagation.  Python exceptions are modelled with `Except`: a
fallible computation returns `.error e` when an underlying call raises `e`.
The notebook's source contains no `try`/`except`, so its mechanical
translation into the `Except` monad simply threads errors outward.
-/

/-- `slow_func` when the underlying `time.sleep` call may raise: the body
has no handler, so an error from `sleepE` is returned as is. -/
def slow_funcE {ε : Type} (sleepE : Int → PyState → Except ε PyState)
    (ping : Int) (s : PyState) : Except ε (PyState × Int) :=
  match sleepE 1 s with
  | .error e => .error e
  | .ok s1 => .ok (s1, ping)

/-- `timer` when the timed call may raise: `timer`'s body has no handler,
so an error from `func()` is returned as is. -/
def timerE {ε α : Type} (func : PyState → Except ε (PyState × α))
    (s : PyState) : Except ε (PyState × Int) :=
  let start_time := time_time s
  match func s with
  | .error e => .error e
  | .ok (s1, _) => .ok (s1, time_time s1 - start_time)

/-- Python 2 `map` over a fallible effectful body: the first raised error
aborts the iteration and propagates. -/
def mapTimedE {ε : Type} (f : Nat → PyState → Except ε (PyState × Int)) :
    List Nat → PyState → Except ε (PyState × List Int)
  | [], s => .ok (s, [])
  | x :: xs, s =>
    match f x s with
    | .error e => .error e
    | .ok (s1, t) =>
      match mapTimedE f xs s1 with
      | .error e => .error e
      | .ok (s2, ts) => .ok (s2, t :: ts)

/-- An experiment cell when the engine `eng` may fail a driver call. -/
def expCellE {ε : Type} (eng : Action → PyState → Except ε (PyState × Unit))
    (act : Nat → Action) (s : PyState) : Except ε (PyState × List Int) :=
  mapTimedE (fun x => timerE (eng (act x))) (List.range 10) s

/- Shared lemmas about the dynamics. -/

theorem timer_fst {α : Type} (func : PyState → PyState × α) (s : PyState) :
    (timer func s).1 = (func s).1 := rfl

theorem runJob_trace (dur : Action → Int) (a : Action) (s : PyState) :
    ((runJob dur a s).1).trace = s.trace ++ [a] := rfl

theorem mapTimed_trace (dur : Action → Int) (act : Nat → Action) :
    ∀ (xs : List Nat) (s : PyState),
      ((mapTimed (fun x => timer (runJob dur (act x))) xs s).1).trace
        = s.trace ++ xs.map act
  | [], s => by simp [mapTimed]
  | x :: xs, s => by
    simp [mapTimed, mapTimed_trace dur act xs, timer, runJob]

theorem mapTimed_length (f : Nat → PyState → PyState × Int) :
    ∀ (xs : List Nat) (s : PyState),
      ((mapTimed f xs s).2).length = xs.length
  | [], _ => rfl
  | _ :: xs, s => by
    simp [mapTimed, mapTimed_length f xs]

theorem expCell_trace (dur : Action → Int) (act : Nat → Action) (s : PyState) :
    ((expCell dur act s).1).trace = s.trace ++ (List.range 10).map act :=
  mapTimed_trace dur act (List.range 10) s

theorem notebookRun_trace (dur : Action → Int) (s : PyState) :
    (notebookRun dur s).trace = s.trace ++ notebookDriverCalls := by
  show ((runJob dur Action.cancelAllJobs _).1).trace = _
  rw [runJob_trace, expCell_trace, expCell_trace, expCell_trace, expCell_trace]
  show s.trace ++ _ ++ _ ++ _ ++ _ ++ _ = _
  simp [notebookDriverCalls]

/- Claim theorems. -/

/-- C2: for every input value, `slow_func` returns that input unchanged
after sleeping for one second (the clock advances by exactly 1 and no
driver call is issued). -/
theorem c2_slow_func_identity_one_second (ping : Int) (s : PyState) :
    (slow_func ping s).2 = ping
      ∧ ((slow_func ping s).1).clock = s.clock + 1
      ∧ ((slow_func ping s).1).trace = s.trace :=
  ⟨rfl, rfl, rfl⟩

/-- C3: `timer func` invokes `func` exactly once — the state it leaves is
precisely that of a single invocation of `func` on the starting state, and
whatever driver calls one invocation of `func` issues appear appended
exactly once — and it returns the clock reading taken after that invocation
minus the reading taken before it. -/
theorem c3_timer_single_invocation_elapsed {α : Type}
    (func : PyState → PyState × α) (s : PyState) (L : List Action)
    (h : ∀ t : PyState, ((func t).1).trace = t.trace ++ L) :
    (timer func s).1 = (func s).1
      ∧ ((timer func s).1).trace = s.trace ++ L
      ∧ (timer func s).2 = time_time ((func s).1) - time_time s :=
  ⟨rfl, h s, rfl⟩

theorem c3_witness :
    (timer (runJob (fun _ => 5) Action.cancelAllJobs) ⟨0, []⟩).1
        = (runJob (fun _ => 5) Action.cancelAllJobs ⟨0, []⟩).1
      ∧ ((timer (runJob (fun _ => 5) Action.cancelAllJobs) ⟨0, []⟩).1).trace
        = (⟨0, []⟩ : PyState).trace ++ [Action.cancelAllJobs]
      ∧ (timer (runJob (fun _ => 5) Action.cancelAllJobs) ⟨0, []⟩).2
        = time_time ((runJob (fun _ => 5) Action.cancelAllJobs ⟨0, []⟩).1)
            - time_time ⟨0, []⟩ :=
  c3_timer_single_invocation_elapsed _ ⟨0, []⟩ [Action.cancelAllJobs]
    (fun _ => rfl)

/-- C10: `timer` discards the timed function's return value: two
zero-argument operations that finish at the same clock reading from the
same start state get the same `timer` result, whatever (even differently
typed) values they return. -/
theorem c10_timer_discards_result {α β : Type}
    (f : PyState → PyState × α) (g : PyState → PyState × β) (s : PyState)
    (h : ((f s).1).clock = ((g s).1).clock) :
    (timer f s).2 = (timer g s).2 := by
  simp [timer, time_time, h]

theorem c10_witness :
    (timer (slow_func 10) ⟨0, []⟩).2
      = (timer (fun t => ((slow_func 99 t).1, "ignored")) ⟨0, []⟩).2 :=
  c10_timer_discards_result _ _ ⟨0, []⟩ rfl

/-- C9: every experiment cell maps its timed body over `range(10)`,
producing exactly ten elapsed-time measurements, and at the first iteration
(`x = 0`) the input sequence is empty: the RDD experiment performs an empty
`take(0)` and the frame experiments write an empty frame. -/
theorem c9_range10_first_measurement_empty (dur : Action → Int) (s : PyState) :
    ((expCell dur expSimpleAction s).2).length = 10
      ∧ ((expCell dur expCoalesceAction s).2).length = 10
      ∧ ((expCell dur expCoalesceMapAction s).2).length = 10
      ∧ ((expCell dur expRepartitionAction s).2).length = 10
      ∧ expSimpleAction 0 = Action.take (RDD.mapSlow (RDD.parallelize [])) 0
      ∧ (expSimpleAction 0).inputData = []
      ∧ (expCoalesceAction 0).inputData = []
      ∧ (expCoalesceMapAction 0).inputData = []
      ∧ (expRepartitionAction 0).inputData = [] := by
  refine ⟨?_, ?_, ?_, ?_, by decide, by decide, by decide, by decide,
    by decide⟩ <;>
  simp [expCell, mapTimed_length]

/-- C5: a whole notebook run (from a fresh trace, at any clock) writes only
to the single constant `path` set up in cell 3, always in `"overwrite"`
mode — so each successive write replaces the prior output — and the trace
shows thirty such writes and no other file-system mutation. -/
theorem c5_writes_one_overwritten_path (dur : Action → Int) (c : Int) :
    (notebookRun dur ⟨c, []⟩).trace.all writeOk = true
      ∧ ((notebookRun dur ⟨c, []⟩).trace.filter Action.isWrite).length = 30 := by
  have ht : (⟨c, []⟩ : PyState).trace = [] := rfl
  rw [notebookRun_trace, ht]
  decide

/-- C6: in a whole notebook run the only job-cancellation driver call is
one unconditional `cancelAllJobs`, and it is the final driver call: it
occurs exactly once, and not at any earlier position of the execution
sequence. -/
theorem c6_cancel_all_jobs_once_final (dur : Action → Int) (c : Int) :
    (notebookRun dur ⟨c, []⟩).trace.count Action.cancelAllJobs = 1
      ∧ (notebookRun dur ⟨c, []⟩).trace.getLast? = some Action.cancelAllJobs := by
  have ht : (⟨c, []⟩ : PyState).trace = [] := rfl
  rw [notebookRun_trace, ht]
  decide

/-- C7: the notebook contains no error handling: an exception raised by an
underlying call propagates unhandled — through `slow_func` when the sleep
raises, through `timer` when the timed call raises, through the `map`
iteration when its body raises, and through a whole experiment cell when
the engine fails its first driver call — with no recovery, retry, or
fallback. -/
theorem c7_no_error_handling :
    (∀ (ε : Type) (sleepE : Int → PyState → Except ε PyState)
        (ping : Int) (s : PyState) (e : ε),
        sleepE 1 s = .error e → slow_funcE sleepE ping s = .error e)
      ∧ (∀ (ε α : Type) (func : PyState → Except ε (PyState × α))
          (s : PyState) (e : ε),
          func s = .error e → timerE func s = .error e)
      ∧ (∀ (ε : Type) (f : Nat → PyState → Except ε (PyState × Int))
          (x : Nat) (xs : List Nat) (s : PyState) (e : ε),
          f x s = .error e → mapTimedE f (x :: xs) s = .error e)
      ∧ (∀ (ε : Type) (eng : Action → PyState → Except ε (PyState × Unit))
          (act : Nat → Action) (s : PyState) (e : ε),
          eng (act 0) s = .error e → expCellE eng act s = .error e) := by
  refine ⟨?_, ?_, ?_, ?_⟩
  · intro ε sleepE ping s e h
    simp [slow_funcE, h]
  · intro ε α func s e h
    simp [timerE, h]
  · intro ε f x xs s e h
    simp [mapTimedE, h]
  · intro ε eng act s e h
    have hr : List.range 10 = 0 :: [1, 2, 3, 4, 5, 6, 7, 8, 9] := by decide
    have h1 : timerE (eng (act 0)) s = .error e := by simp [timerE, h]
    simp [expCellE, hr, mapTimedE, h1]

theorem c7_witness :
    slow_funcE (fun _ _ => (Except.error "job aborted" : Except String PyState))
        10 ⟨0, []⟩ = Except.error "job aborted"
      ∧ timerE (fun _ => (Except.error "job aborted" :
          Except String (PyState × Int))) ⟨0, []⟩ = Except.error "job aborted"
      ∧ mapTimedE (fun _ _ => (Except.error "job aborted" :
          Except String (PyState × Int))) (0 :: [1]) ⟨0, []⟩
        = Except.error "job aborted"
      ∧ expCellE (fun _ _ => (Except.error "job aborted" :
          Except String (PyState × Unit))) expCoalesceMapAction ⟨0, []⟩
        = Except.error "job aborted" :=
  ⟨c7_no_error_handling.1 String _ 10 ⟨0, []⟩ _ rfl,
   c7_no_error_handling.2.1 String Int _ ⟨0, []⟩ _ rfl,
   c7_no_error_handling.2.2.1 String _ 0 [1] ⟨0, []⟩ _ rfl,
   c7_no_error_handling.2.2.2 String _ expCoalesceMapAction ⟨0, []⟩ _ rfl⟩

/-- C8 fails as stated: an experiment cell does not issue exactly one
blocking driver call nor record a single elapsed time — running the
coalesce-with-map cell (cell 14) issues ten driver calls and records ten
elapsed times. -/
theorem c8_counterexample :
    ¬ (((expCell (fun _ => 1) expCoalesceMapAction ⟨0, []⟩).1).trace.length = 1
        ∧ ((expCell (fun _ => 1) expCoalesceMapAction ⟨0, []⟩).2).length = 1) := by
  decide

/-- C8 amended: each timed invocation inside an experiment cell issues
exactly one blocking driver call, blocks until the engine-chosen job
duration has elapsed, and records that single elapsed time; an experiment
cell performs ten such invocations in order, its driver calls being exactly
`act x` for `x` in `range(10)`. -/
theorem c8_one_blocking_call_per_invocation
    (dur : Action → Int) (act : Nat → Action) (x : Nat) (s : PyState) :
    ((timer (runJob dur (act x)) s).1).trace = s.trace ++ [act x]
      ∧ ((timer (runJob dur (act x)) s).1).clock = s.clock + dur (act x)
      ∧ (timer (runJob dur (act x)) s).2 = dur (act x)
      ∧ ((expCell dur act s).1).trace = s.trace ++ (List.range 10).map act := by
  refine ⟨rfl, rfl, ?_, expCell_trace dur act s⟩
  simp [timer, runJob, time_time]

/-- C4 fails as stated: after erasing exactly the three dimensions the
claim allows to vary (the `create_frame` wrapping, the `.map(slow_func)`
nodes, the `coalesce(1)` / `repartition(1)` choice), the simple-RDD
experiment still differs from the coalesce experiment at input size 0: it
materializes with `take` while the others persist to parquet, so not every
other aspect of the four experiments is the same. -/
theorem c4_counterexample :
    ¬ eraseDims (expSimpleAction 0) = eraseDims (expCoalesceAction 0) := by
  decide

/-- C4 amended: the notebook performs exactly four experiment invocations;
the three DataFrame experiments (cells 12, 14, 16) vary only in whether
`slow_func` is mapped over the data and in the `coalesce(1)` vs
`repartition(1)` choice — after erasing exactly those dimensions they are
identical, sharing write mode, path and input construction; the simple-RDD
experiment (cell 10) shares the same parallelized `range(x)` input and the
mapped `slow_func` but materializes via `take(x)` instead of a parquet
write. -/
theorem c4_four_experiments_vary_in_dimensions (x : Nat) :
    experimentCells.length = 4
      ∧ eraseDims (expCoalesceAction x) = eraseDims (expCoalesceMapAction x)
      ∧ eraseDims (expCoalesceMapAction x) = eraseDims (expRepartitionAction x)
      ∧ (expSimpleAction x).inputData = (expCoalesceMapAction x).inputData
      ∧ expSimpleAction x
        = Action.take (RDD.mapSlow (RDD.parallelize (intRange x))) x :=
  ⟨rfl, rfl, rfl, rfl, rfl⟩

end AvoidCoalesce
